import Mathlib

/-!
Shallow embedding of `src/prop_tool/analysis.py` (module `prop_tool.analysis`).

Numbers: the Python code computes with IEEE doubles via numpy; we model the
arithmetic exactly over `ℚ`.  `math.pi` is the IEEE double nearest to π, whose
exact rational value is 884279719003555 / 2^48; decimal literals of the source
are taken at their decimal value.  NaN (numpy's marker for undefined
efficiency) is modelled by `Option ℚ` with `none` for NaN.  The `ValueError`
raised by `MotorSpec.kt_nm_per_amp` is modelled by `Except String`.
A pandas `DataFrame` is modelled as a `List` of row records; columns not
consumed by the analyzer are carried in an `extra` association list so that
their preservation can be stated.
-/

/-- Exact rational value of Python's `math.pi` (the IEEE-754 double closest
to π, namely 884279719003555 / 2^48). -/
def mathPi : ℚ := 884279719003555 / 281474976710656

/-- Embedding of the dataclass `MotorSpec` from `analysis.py`: electrical
parameters of a BLDC motor.  `max_current = none` models Python's `None`. -/
structure MotorSpec where
  kv_rpm_per_volt : ℚ
  resistance_ohm : ℚ
  voltage : ℚ
  no_load_current : ℚ := 0
  max_current : Option ℚ := none
deriving DecidableEq, Repr

/-- Embedding of the property `MotorSpec.kt_nm_per_amp`: the torque constant
`60 / (2·π·kv)`, raising `ValueError` (modelled as `Except.error`) when
`kv_rpm_per_volt <= 0`. -/
def MotorSpec.kt_nm_per_amp (s : MotorSpec) : Except String ℚ :=
  if s.kv_rpm_per_volt ≤ 0 then Except.error "kv_rpm_per_volt must be positive"
  else Except.ok (60 / (2 * mathPi * s.kv_rpm_per_volt))

/-- The torque constant value returned in the non-error case of
`MotorSpec.kt_nm_per_amp`. -/
def ktVal (s : MotorSpec) : ℚ := 60 / (2 * mathPi * s.kv_rpm_per_volt)

/-- One row of the input `DataFrame`: the columns the analyzer reads
(`rpm`, `torque_nm`, `power_w`) plus all remaining columns, carried
generically as an association list of column name to value. -/
structure Row where
  rpm : ℚ
  torque_nm : ℚ
  power_w : ℚ
  extra : List (String × ℚ)
deriving DecidableEq, Repr

/-- One row of the output `DataFrame` of `compute_motor_performance`: the
original row (`base`, every original column unchanged) plus exactly the six
derived columns added by the function.  `motor_efficiency = none` models the
NaN written by `np.where(electrical_power > 0, ..., np.nan)`. -/
structure AugRow where
  base : Row
  motor_current_a : ℚ
  motor_voltage_v : ℚ
  motor_power_w : ℚ
  motor_efficiency : Option ℚ
  feasible : Bool
  voltage_headroom_v : ℚ
deriving DecidableEq, Repr

/-- The epsilon `1e-6` used by the feasibility test in
`compute_motor_performance`. -/
def eps : ℚ := 1 / 1000000

/-- The per-row body of `compute_motor_performance` (the numpy expressions of
lines 48-58 and the column assignments of lines 60-65 of `analysis.py`),
given the torque constant `kt` already obtained from the spec. -/
def augmentRow (spec : MotorSpec) (kt : ℚ) (r : Row) : AugRow :=
  let current := r.torque_nm / kt + spec.no_load_current
  let required_voltage := r.rpm / spec.kv_rpm_per_volt + current * spec.resistance_ohm
  let electrical_power := required_voltage * current
  let motor_efficiency :=
    if 0 < electrical_power then some (r.power_w / electrical_power) else none
  let feasible :=
    decide (required_voltage ≤ spec.voltage + eps) &&
      (match spec.max_current with
       | none => true
       | some m => decide (current ≤ m + eps))
  { base := r
    motor_current_a := current
    motor_voltage_v := required_voltage
    motor_power_w := electrical_power
    motor_efficiency := motor_efficiency
    feasible := feasible
    voltage_headroom_v := spec.voltage - required_voltage }

/-- Embedding of `compute_motor_performance`: on an empty frame return an
empty copy before touching the spec; otherwise request the torque constant
(which may raise) and compute the derived columns for every row. -/
def compute_motor_performance (data : List Row) (spec : MotorSpec) :
    Except String (List AugRow) :=
  if data.isEmpty then Except.ok []
  else do
    let kt ← spec.kt_nm_per_amp
    Except.ok (data.map (augmentRow spec kt))

/-- Helper: on a non-empty frame and a spec with positive `kv`,
`compute_motor_performance` succeeds and maps `augmentRow` over the rows. -/
theorem compute_eq_ok (data : List Row) (spec : MotorSpec)
    (hne : data ≠ []) (hkv : 0 < spec.kv_rpm_per_volt) :
    compute_motor_performance data spec =
      Except.ok (data.map (augmentRow spec (ktVal spec))) := by
  have hkt : spec.kt_nm_per_amp = Except.ok (ktVal spec) := by
    unfold MotorSpec.kt_nm_per_amp ktVal
    rw [if_neg (not_le.mpr hkv)]
  have hempty : data.isEmpty = false := by
    cases data with
    | nil => exact absurd rfl hne
    | cons a l => rfl
  unfold compute_motor_performance
  rw [hempty, hkt]
  rfl

/-- Concrete witness data: one row of an APC-style dataset. -/
def w1Row : Row := ⟨1000, 1, 50, [("mph", 0)]⟩

/-- Concrete witness spec with positive `kv` and a current limit set. -/
def w1Spec : MotorSpec := ⟨100, 1/100, 12, 1/2, some 40⟩

/-- Concrete witness spec with `kv = 0` (invalid). -/
def w0Spec : MotorSpec := ⟨0, 1/100, 12, 1/2, none⟩

/-- C1: on every non-empty dataset and spec with `kv_rpm_per_volt > 0`,
`compute_motor_performance` succeeds, producing one output row per input row,
and on every row `motor_current_a = torque_nm / kt + no_load_current`,
`motor_voltage_v = rpm / kv + motor_current_a * resistance_ohm`, and
`motor_power_w = motor_voltage_v * motor_current_a`, with
`kt = 60 / (2·π·kv)`. -/
theorem c1_row_equations (data : List Row) (spec : MotorSpec)
    (hne : data ≠ []) (hkv : 0 < spec.kv_rpm_per_volt) :
    compute_motor_performance data spec =
      Except.ok (data.map (augmentRow spec (ktVal spec))) ∧
    ∀ r ∈ data,
      (augmentRow spec (ktVal spec) r).motor_current_a =
        r.torque_nm / (60 / (2 * mathPi * spec.kv_rpm_per_volt)) +
          spec.no_load_current ∧
      (augmentRow spec (ktVal spec) r).motor_voltage_v =
        r.rpm / spec.kv_rpm_per_volt +
          (augmentRow spec (ktVal spec) r).motor_current_a *
            spec.resistance_ohm ∧
      (augmentRow spec (ktVal spec) r).motor_power_w =
        (augmentRow spec (ktVal spec) r).motor_voltage_v *
          (augmentRow spec (ktVal spec) r).motor_current_a := by
  refine ⟨compute_eq_ok data spec hne hkv, ?_⟩
  intro r _
  exact ⟨rfl, rfl, rfl⟩

/-- Witness for C1 at a concrete one-row dataset and concrete spec. -/
theorem c1_row_equations_witness :
    compute_motor_performance [w1Row] w1Spec =
      Except.ok ([w1Row].map (augmentRow w1Spec (ktVal w1Spec))) ∧
    ∀ r ∈ [w1Row],
      (augmentRow w1Spec (ktVal w1Spec) r).motor_current_a =
        r.torque_nm / (60 / (2 * mathPi * w1Spec.kv_rpm_per_volt)) +
          w1Spec.no_load_current ∧
      (augmentRow w1Spec (ktVal w1Spec) r).motor_voltage_v =
        r.rpm / w1Spec.kv_rpm_per_volt +
          (augmentRow w1Spec (ktVal w1Spec) r).motor_current_a *
            w1Spec.resistance_ohm ∧
      (augmentRow w1Spec (ktVal w1Spec) r).motor_power_w =
        (augmentRow w1Spec (ktVal w1Spec) r).motor_voltage_v *
          (augmentRow w1Spec (ktVal w1Spec) r).motor_current_a :=
  c1_row_equations [w1Row] w1Spec (by decide) (by decide)

/-- C2: on every non-empty dataset and spec with `kv_rpm_per_volt > 0`, the
`feasible` flag of each output row is `true` exactly when
`motor_voltage_v <= voltage + 1e-6` and (`max_current` is `None` or
`motor_current_a <= max_current + 1e-6`): both directions hold. -/
theorem c2_feasible_iff (data : List Row) (spec : MotorSpec)
    (hne : data ≠ []) (hkv : 0 < spec.kv_rpm_per_volt) :
    compute_motor_performance data spec =
      Except.ok (data.map (augmentRow spec (ktVal spec))) ∧
    ∀ r ∈ data,
      ((augmentRow spec (ktVal spec) r).feasible = true ↔
        ((augmentRow spec (ktVal spec) r).motor_voltage_v ≤
            spec.voltage + eps ∧
          ∀ m, spec.max_current = some m →
            (augmentRow spec (ktVal spec) r).motor_current_a ≤ m + eps)) := by
  refine ⟨compute_eq_ok data spec hne hkv, ?_⟩
  intro r _
  cases hmc : spec.max_current with
  | none => simp [augmentRow, hmc]
  | some m => simp [augmentRow, hmc]

/-- Witness for C2 at a concrete one-row dataset and concrete spec. -/
theorem c2_feasible_iff_witness :
    compute_motor_performance [w1Row] w1Spec =
      Except.ok ([w1Row].map (augmentRow w1Spec (ktVal w1Spec))) ∧
    ∀ r ∈ [w1Row],
      ((augmentRow w1Spec (ktVal w1Spec) r).feasible = true ↔
        ((augmentRow w1Spec (ktVal w1Spec) r).motor_voltage_v ≤
            w1Spec.voltage + eps ∧
          ∀ m, w1Spec.max_current = some m →
            (augmentRow w1Spec (ktVal w1Spec) r).motor_current_a ≤ m + eps)) :=
  c2_feasible_iff [w1Row] w1Spec (by decide) (by decide)

/-- C4: for every `MotorSpec`, `compute_motor_performance` on an empty
dataset returns an empty dataset and raises no exception. -/
theorem c4_empty_input_ok (spec : MotorSpec) :
    compute_motor_performance [] spec = Except.ok [] := rfl

/-- C5: for every non-empty dataset and every spec with
`kv_rpm_per_volt <= 0`, `compute_motor_performance` raises the `ValueError`
from `kt_nm_per_amp` (the InvalidSpec condition) and processes no row. -/
theorem c5_invalid_kv_raises (data : List Row) (spec : MotorSpec)
    (hne : data ≠ []) (hkv : spec.kv_rpm_per_volt ≤ 0) :
    compute_motor_performance data spec =
      Except.error "kv_rpm_per_volt must be positive" := by
  have hkt : spec.kt_nm_per_amp =
      Except.error "kv_rpm_per_volt must be positive" := by
    unfold MotorSpec.kt_nm_per_amp
    rw [if_pos hkv]
  have hempty : data.isEmpty = false := by
    cases data with
    | nil => exact absurd rfl hne
    | cons a l => rfl
  unfold compute_motor_performance
  rw [hempty, hkt]
  rfl

/-- Witness for C5 at a concrete one-row dataset and a spec with `kv = 0`. -/
theorem c5_invalid_kv_raises_witness :
    compute_motor_performance [w1Row] w0Spec =
      Except.error "kv_rpm_per_volt must be positive" :=
  c5_invalid_kv_raises [w1Row] w0Spec (by decide) (by decide)

/-- C10: on an empty dataset `compute_motor_performance` returns before the
torque constant is evaluated: even with `kv_rpm_per_volt <= 0` it returns an
empty frame and raises nothing — spec validation is skipped entirely. -/
theorem c10_empty_skips_validation (spec : MotorSpec)
    (_hkv : spec.kv_rpm_per_volt ≤ 0) :
    compute_motor_performance [] spec = Except.ok [] := rfl

/-- Witness for C10 at the concrete spec with `kv = 0`. -/
theorem c10_empty_skips_validation_witness :
    compute_motor_performance [] w0Spec = Except.ok [] :=
  c10_empty_skips_validation w0Spec (by decide)

/-- Sample row of the end-to-end scenario: RPM 6000, torque 0.30 N·m,
mechanical power 188 W. -/
def c3Row : Row := ⟨6000, 3/10, 188, [("mph", 0)]⟩

/-- Sample spec of the end-to-end scenario:
`MotorSpec(kv=720, R=0.05, V=22.2, no_load=1.5, max_current=65)`. -/
def c3Spec : MotorSpec := ⟨720, 1/20, 111/5, 3/2, some 65⟩

/-- C3: on the sample row (rpm 6000, torque 0.30, power 188) with
`MotorSpec(720, 0.05, 22.2, 1.5, some 65)`, the computed row has
`motor_current_a ≈ 24.13` (within 0.02), `motor_voltage_v ≈ 9.54` (within
0.01), `motor_power_w ≈ 230.2` (within 0.2), `motor_efficiency ≈ 0.817`
(within 0.001), and `feasible = true`. -/
theorem c3_sample_scenario :
    compute_motor_performance [c3Row] c3Spec =
      Except.ok [augmentRow c3Spec (ktVal c3Spec) c3Row] ∧
    (2411/100 : ℚ) ≤ (augmentRow c3Spec (ktVal c3Spec) c3Row).motor_current_a ∧
    (augmentRow c3Spec (ktVal c3Spec) c3Row).motor_current_a ≤ 2415/100 ∧
    (953/100 : ℚ) ≤ (augmentRow c3Spec (ktVal c3Spec) c3Row).motor_voltage_v ∧
    (augmentRow c3Spec (ktVal c3Spec) c3Row).motor_voltage_v ≤ 955/100 ∧
    (2300/10 : ℚ) ≤ (augmentRow c3Spec (ktVal c3Spec) c3Row).motor_power_w ∧
    (augmentRow c3Spec (ktVal c3Spec) c3Row).motor_power_w ≤ 2304/10 ∧
    (augmentRow c3Spec (ktVal c3Spec) c3Row).motor_efficiency.isSome = true ∧
    (816/1000 : ℚ) ≤
      ((augmentRow c3Spec (ktVal c3Spec) c3Row).motor_efficiency.getD 0) ∧
    ((augmentRow c3Spec (ktVal c3Spec) c3Row).motor_efficiency.getD 0) ≤
      818/1000 ∧
    (augmentRow c3Spec (ktVal c3Spec) c3Row).feasible = true := by
  refine ⟨compute_eq_ok [c3Row] c3Spec (by decide) (by decide), ?_⟩
  norm_num [augmentRow, ktVal, mathPi, c3Spec, c3Row, eps]

/-- Helper: the efficiency column of a computed row is the mechanical power
divided by the electrical power when the latter is positive, `none` (NaN)
otherwise. -/
theorem augmentRow_efficiency (spec : MotorSpec) (kt : ℚ) (r : Row) :
    (augmentRow spec kt r).motor_efficiency =
      if 0 < (augmentRow spec kt r).motor_power_w
      then some (r.power_w / (augmentRow spec kt r).motor_power_w)
      else none := rfl

/-- Row of the C6 counterexample: zero torque but a large documented
mechanical power. -/
def c6Row : Row := ⟨1000, 0, 100, []⟩

/-- Spec of the C6 counterexample. -/
def c6Spec : MotorSpec := ⟨1000, 0, 10, 1, none⟩

/-- Counterexample to C6: with torque 0, documented power 100 W, and a spec
giving electrical power exactly 1 W > 0, the efficiency is the numeric value
100, which is not in [0, 1] — the code never clamps the ratio. -/
theorem c6_counterexample :
    compute_motor_performance [c6Row] c6Spec =
      Except.ok [augmentRow c6Spec (ktVal c6Spec) c6Row] ∧
    (augmentRow c6Spec (ktVal c6Spec) c6Row).motor_power_w = 1 ∧
    (augmentRow c6Spec (ktVal c6Spec) c6Row).motor_efficiency = some 100 ∧
    ¬((100 : ℚ) ≤ 1) := by
  refine ⟨compute_eq_ok [c6Row] c6Spec (by decide) (by decide), ?_, ?_, ?_⟩
  · norm_num [augmentRow, ktVal, mathPi, c6Spec, c6Row]
  · norm_num [augmentRow, ktVal, mathPi, c6Spec, c6Row]
  · norm_num

/-- C6 amended: on rows whose electrical power is positive,
`motor_efficiency` equals `power_w / motor_power_w`; it is NaN exactly when
the electrical power is `<= 0`; when defined it is `>= 0` whenever the
row's mechanical power is `>= 0` but need not be `<= 1`. -/
theorem c6_efficiency_range (data : List Row) (spec : MotorSpec)
    (hne : data ≠ []) (hkv : 0 < spec.kv_rpm_per_volt) :
    compute_motor_performance data spec =
      Except.ok (data.map (augmentRow spec (ktVal spec))) ∧
    ∀ r ∈ data,
      (0 < (augmentRow spec (ktVal spec) r).motor_power_w →
        (augmentRow spec (ktVal spec) r).motor_efficiency =
          some (r.power_w / (augmentRow spec (ktVal spec) r).motor_power_w)) ∧
      ((augmentRow spec (ktVal spec) r).motor_efficiency = none ↔
        (augmentRow spec (ktVal spec) r).motor_power_w ≤ 0) ∧
      (0 ≤ r.power_w → ∀ e,
        (augmentRow spec (ktVal spec) r).motor_efficiency = some e → 0 ≤ e) := by
  refine ⟨compute_eq_ok data spec hne hkv, ?_⟩
  intro r _
  have hE := augmentRow_efficiency spec (ktVal spec) r
  refine ⟨?_, ?_, ?_⟩
  · intro hp
    rw [hE, if_pos hp]
  · constructor
    · intro hnone
      by_contra hpos
      rw [hE, if_pos (not_le.mp hpos)] at hnone
      exact Option.some_ne_none _ hnone
    · intro hle
      rw [hE, if_neg (not_lt.mpr hle)]
  · intro hpw e he
    rw [hE] at he
    by_cases hp : 0 < (augmentRow spec (ktVal spec) r).motor_power_w
    · rw [if_pos hp] at he
      have : r.power_w / (augmentRow spec (ktVal spec) r).motor_power_w = e :=
        Option.some.inj he
      rw [← this]
      exact div_nonneg hpw hp.le
    · rw [if_neg hp] at he
      exact absurd he.symm (Option.some_ne_none _)

/-- Witness for the amended C6 at a concrete one-row dataset. -/
theorem c6_efficiency_range_witness :
    compute_motor_performance [w1Row] w1Spec =
      Except.ok ([w1Row].map (augmentRow w1Spec (ktVal w1Spec))) ∧
    ∀ r ∈ [w1Row],
      (0 < (augmentRow w1Spec (ktVal w1Spec) r).motor_power_w →
        (augmentRow w1Spec (ktVal w1Spec) r).motor_efficiency =
          some (r.power_w /
            (augmentRow w1Spec (ktVal w1Spec) r).motor_power_w)) ∧
      ((augmentRow w1Spec (ktVal w1Spec) r).motor_efficiency = none ↔
        (augmentRow w1Spec (ktVal w1Spec) r).motor_power_w ≤ 0) ∧
      (0 ≤ r.power_w → ∀ e,
        (augmentRow w1Spec (ktVal w1Spec) r).motor_efficiency = some e →
          0 ≤ e) :=
  c6_efficiency_range [w1Row] w1Spec (by decide) (by decide)

/-- C7: on every non-empty dataset and spec with positive `kv`, the call
succeeds (no exception), every input row is retained (one output row per
input row, original columns intact), and `motor_efficiency` equals
`power_w / motor_power_w` exactly on rows with `motor_power_w > 0` while
rows with `motor_power_w <= 0` get the NaN marker instead. -/
theorem c7_efficiency_definition (data : List Row) (spec : MotorSpec)
    (hne : data ≠ []) (hkv : 0 < spec.kv_rpm_per_volt) :
    compute_motor_performance data spec =
      Except.ok (data.map (augmentRow spec (ktVal spec))) ∧
    (data.map (augmentRow spec (ktVal spec))).length = data.length ∧
    (data.map (augmentRow spec (ktVal spec))).map AugRow.base = data ∧
    ∀ r ∈ data,
      (0 < (augmentRow spec (ktVal spec) r).motor_power_w →
        (augmentRow spec (ktVal spec) r).motor_efficiency =
          some (r.power_w / (augmentRow spec (ktVal spec) r).motor_power_w)) ∧
      ((augmentRow spec (ktVal spec) r).motor_power_w ≤ 0 →
        (augmentRow spec (ktVal spec) r).motor_efficiency = none) := by
  refine ⟨compute_eq_ok data spec hne hkv, List.length_map data _, ?_, ?_⟩
  · rw [List.map_map]
    have hcomp : (AugRow.base ∘ augmentRow spec (ktVal spec)) = id :=
      funext (fun r => rfl)
    rw [hcomp, List.map_id]
  · intro r _
    have hE := augmentRow_efficiency spec (ktVal spec) r
    constructor
    · intro hp
      rw [hE, if_pos hp]
    · intro hle
      rw [hE, if_neg (not_lt.mpr hle)]

/-- Witness for C7 at a concrete one-row dataset. -/
theorem c7_efficiency_definition_witness :
    compute_motor_performance [w1Row] w1Spec =
      Except.ok ([w1Row].map (augmentRow w1Spec (ktVal w1Spec))) ∧
    ([w1Row].map (augmentRow w1Spec (ktVal w1Spec))).length =
      [w1Row].length ∧
    ([w1Row].map (augmentRow w1Spec (ktVal w1Spec))).map AugRow.base =
      [w1Row] ∧
    ∀ r ∈ [w1Row],
      (0 < (augmentRow w1Spec (ktVal w1Spec) r).motor_power_w →
        (augmentRow w1Spec (ktVal w1Spec) r).motor_efficiency =
          some (r.power_w /
            (augmentRow w1Spec (ktVal w1Spec) r).motor_power_w)) ∧
      ((augmentRow w1Spec (ktVal w1Spec) r).motor_power_w ≤ 0 →
        (augmentRow w1Spec (ktVal w1Spec) r).motor_efficiency = none) :=
  c7_efficiency_definition [w1Row] w1Spec (by decide) (by decide)

/-- Row of the C8 counterexample: rpm 1, zero torque and power. -/
def c8Row : Row := ⟨1, 0, 0, []⟩

/-- Spec of the C8 counterexample: supply voltage 0.4999995 V, half a
micro-volt below the required 0.5 V, no current limit. -/
def c8Spec : MotorSpec := ⟨2, 0, 4999995/10000000, 0, none⟩

/-- Counterexample to C8: the required voltage is 0.5 V against a supply of
0.4999995 V, so `voltage_headroom_v = -5e-7 < 0` and no current limit is
set, yet `feasible = true` because the deficit is within the 1e-6 epsilon of
the feasibility test. -/
theorem c8_counterexample :
    compute_motor_performance [c8Row] c8Spec =
      Except.ok [augmentRow c8Spec (ktVal c8Spec) c8Row] ∧
    c8Spec.max_current = none ∧
    (augmentRow c8Spec (ktVal c8Spec) c8Row).voltage_headroom_v < 0 ∧
    (augmentRow c8Spec (ktVal c8Spec) c8Row).feasible = true := by
  refine ⟨compute_eq_ok [c8Row] c8Spec (by decide) (by decide), rfl, ?_, ?_⟩
  · norm_num [augmentRow, ktVal, mathPi, c8Spec, c8Row]
  · norm_num [augmentRow, ktVal, mathPi, c8Spec, c8Row, eps]

/-- C8 amended: on every row `voltage_headroom_v = voltage - motor_voltage_v`
(signed); and with no current limit set, a headroom below `-1e-6` (the
feasibility epsilon) makes the row infeasible — a merely negative headroom
inside the epsilon band does not. -/
theorem c8_headroom (data : List Row) (spec : MotorSpec)
    (hne : data ≠ []) (hkv : 0 < spec.kv_rpm_per_volt) :
    compute_motor_performance data spec =
      Except.ok (data.map (augmentRow spec (ktVal spec))) ∧
    ∀ r ∈ data,
      (augmentRow spec (ktVal spec) r).voltage_headroom_v =
        spec.voltage - (augmentRow spec (ktVal spec) r).motor_voltage_v ∧
      (spec.max_current = none →
        (augmentRow spec (ktVal spec) r).voltage_headroom_v < -eps →
        (augmentRow spec (ktVal spec) r).feasible = false) := by
  refine ⟨compute_eq_ok data spec hne hkv, ?_⟩
  intro r _
  refine ⟨rfl, ?_⟩
  intro hmc hlt
  have hv : spec.voltage + eps <
      (augmentRow spec (ktVal spec) r).motor_voltage_v := by
    have : spec.voltage - (augmentRow spec (ktVal spec) r).motor_voltage_v <
        -eps := hlt
    linarith
  show (decide (_ ≤ spec.voltage + eps) && _) = false
  rw [hmc]
  simp only [Bool.and_eq_false_iff, decide_eq_false_iff_not, not_le]
  left
  exact hv

/-- Witness for the amended C8: supply 0.4 V, required 0.5 V, headroom
-0.1 V below `-1e-6`, no current limit — the row is infeasible. -/
def c8wSpec : MotorSpec := ⟨2, 0, 2/5, 0, none⟩

/-- Witness theorem for the amended C8 at a concrete dataset and spec. -/
theorem c8_headroom_witness :
    compute_motor_performance [c8Row] c8wSpec =
      Except.ok ([c8Row].map (augmentRow c8wSpec (ktVal c8wSpec))) ∧
    ∀ r ∈ [c8Row],
      (augmentRow c8wSpec (ktVal c8wSpec) r).voltage_headroom_v =
        c8wSpec.voltage - (augmentRow c8wSpec (ktVal c8wSpec) r).motor_voltage_v ∧
      (c8wSpec.max_current = none →
        (augmentRow c8wSpec (ktVal c8wSpec) r).voltage_headroom_v < -eps →
        (augmentRow c8wSpec (ktVal c8wSpec) r).feasible = false) :=
  c8_headroom [c8Row] c8wSpec (by decide) (by decide)

/-- C9: `compute_motor_performance` is a pure transform. In this embedding
the input list is untouched by construction; the theorem states the
column-preservation content: for every dataset (empty or not) and spec with
positive `kv`, the call succeeds and projecting the original columns
(`base`) out of the output gives back exactly the input rows — same rows,
same order, every original column value unchanged — while the `AugRow`
record carries, beyond `base`, exactly the six derived columns
`motor_current_a`, `motor_voltage_v`, `motor_power_w`, `motor_efficiency`,
`feasible`, `voltage_headroom_v`. -/
theorem c9_no_mutation (data : List Row) (spec : MotorSpec)
    (hkv : 0 < spec.kv_rpm_per_volt) :
    ∃ out, compute_motor_performance data spec = Except.ok out ∧
      out.map AugRow.base = data := by
  cases data with
  | nil => exact ⟨[], rfl, rfl⟩
  | cons a l =>
    refine ⟨(a :: l).map (augmentRow spec (ktVal spec)),
      compute_eq_ok (a :: l) spec (by simp) hkv, ?_⟩
    rw [List.map_map]
    have hcomp : (AugRow.base ∘ augmentRow spec (ktVal spec)) = id :=
      funext (fun r => rfl)
    rw [hcomp, List.map_id]

/-- Witness for C9 at a concrete one-row dataset. -/
theorem c9_no_mutation_witness :
    ∃ out, compute_motor_performance [w1Row] w1Spec = Except.ok out ∧
      out.map AugRow.base = [w1Row] :=
  c9_no_mutation [w1Row] w1Spec (by decide)

/-- Witness for C4 at a concrete spec. -/
theorem c4_empty_input_ok_witness :
    compute_motor_performance [] w1Spec = Except.ok [] :=
  c4_empty_input_ok w1Spec
